import Mathlib

set_option maxRecDepth 8000

/-!
Verification development for the ApiProxy / ApiProxyPool component of the
ocsjs-ai-backend repository (services/api_proxy_pool.py, plus the admin
update route in routes/api_proxy_management.py).

Embedding conventions:
* Python float timestamps and response times are modelled as exact rationals
  (Rat); the decimal weight literals 0.25, 0.15, ... are read as exact
  decimals.
* In-place mutation of an ApiProxy object is modelled by functions returning
  the updated record; pool-level mutation threads the whole proxy list.
* The attribute circuit_breaker_opened_at, which the source deletes with
  delattr and re-creates, is modelled as an Option Rat: none stands for the
  deleted attribute, some t for a present attribute with value t.  The
  constructor sets it to some 0 (the source initialises it to 0.0).
* Network requests are abstracted by an Outcome value describing what the
  HTTP layer produced (a 200 response with a latency, an HTTP error status,
  or a transport-level exception raised before any response).
-/

/-- Keep the last n elements of a list, the Python slice l[-n:] used for the
bounded response-time and timestamp buffers. -/
def takeLast {α : Type} (n : Nat) (l : List α) : List α := l.drop (l.length - n)

/-- Strip trailing slash characters, as api_base.rstrip applied in the
ApiProxy constructor and in the admin update route. -/
def rstripSlash (s : String) : String :=
  String.mk ((s.data.reverse.dropWhile (fun c => c == '/')).reverse)

/-- ApiProxy.max_consecutive_errors, set to 5 in the constructor and never
changed. -/
def max_consecutive_errors : Nat := 5

/-- ApiProxyPool.circuit_breaker_threshold, set to 5 in the pool constructor. -/
def circuit_breaker_threshold : Nat := 5

/-- ApiProxyPool.circuit_breaker_timeout, 300 seconds. -/
def circuit_breaker_timeout : Rat := 300

/-- ApiProxyPool.auto_recovery_interval, 1800 seconds. -/
def auto_recovery_interval : Rat := 1800

/-- ApiProxy.max_auto_recovery_attempts, set to 3 in the constructor. -/
def max_auto_recovery_attempts : Nat := 3

/-- The per-proxy state of services/api_proxy_pool.py, class ApiProxy. -/
structure ApiProxy where
  name : String
  api_base : String
  api_keys : List String
  model : String
  models : List String
  available_models : List String
  is_active : Bool
  priority : Int
  current_key_index : Nat
  success_count : Nat
  error_count : Nat
  last_used : Rat
  response_times : List Rat
  last_health_check : Rat
  consecutive_errors : Nat
  created_at : Rat
  disabled_at : Rat
  auto_recovery_attempts : Nat
  last_success_time : Rat
  request_timestamps : List Rat
  circuit_breaker_opened_at : Option Rat
  error_types : List (String × Nat)
  deriving DecidableEq

/-- ApiProxy.__init__: runtime fields start at zero / empty, created_at is
the construction time, circuit_breaker_opened_at starts present with value
0.0, and api_base has trailing slashes stripped. -/
def ApiProxy.init (name : String) (api_base : String) (api_keys : List String)
    (model : String) (models : List String) (is_active : Bool) (priority : Int)
    (available_models : List String) (now : Rat) : ApiProxy :=
  { name := name
    api_base := rstripSlash api_base
    api_keys := api_keys
    model := model
    models := models
    available_models := available_models
    is_active := is_active
    priority := priority
    current_key_index := 0
    success_count := 0
    error_count := 0
    last_used := 0
    response_times := []
    last_health_check := 0
    consecutive_errors := 0
    created_at := now
    disabled_at := 0
    auto_recovery_attempts := 0
    last_success_time := 0
    request_timestamps := []
    circuit_breaker_opened_at := some 0
    error_types := [] }

/-- ApiProxy.get_current_key: empty string for an empty key list, otherwise
the key at current_key_index modulo the list length. -/
def get_current_key (p : ApiProxy) : String :=
  if p.api_keys.isEmpty then ""
  else p.api_keys.getD (p.current_key_index % p.api_keys.length) ""

/-- ApiProxy.rotate_key: advance current_key_index modulo the key count, but
only when there is more than one key. -/
def rotate_key (p : ApiProxy) : ApiProxy :=
  if 1 < p.api_keys.length then
    { p with current_key_index := (p.current_key_index + 1) % p.api_keys.length }
  else p

/-- ApiProxy.record_success: bump success_count, stamp last_used and
last_success_time, append to the bounded buffers, and reset
consecutive_errors to zero. -/
def record_success (p : ApiProxy) (now response_time : Rat) : ApiProxy :=
  { p with
    success_count := p.success_count + 1
    last_used := now
    last_success_time := now
    response_times := takeLast 100 (p.response_times ++ [response_time])
    consecutive_errors := 0
    request_timestamps := takeLast 500 (p.request_timestamps ++ [now]) }

/-- Increment of the error_types dictionary entry for a key, preserving
insertion order as a Python dict does. -/
def bumpErrorType (l : List (String × Nat)) (k : String) : List (String × Nat) :=
  if l.any (fun kv => kv.1 == k) then
    l.map (fun kv => if kv.1 == k then (kv.1, kv.2 + 1) else kv)
  else l ++ [(k, 1)]

/-- ApiProxy.record_error: bump error_count and consecutive_errors, record
the error type and timestamp, and when consecutive_errors reaches
max_consecutive_errors deactivate the proxy and stamp disabled_at. -/
def record_error (p : ApiProxy) (now : Rat) (error_type : String) : ApiProxy :=
  let q := { p with
    error_count := p.error_count + 1
    last_used := now
    consecutive_errors := p.consecutive_errors + 1
    error_types := bumpErrorType p.error_types error_type
    request_timestamps := takeLast 500 (p.request_timestamps ++ [now]) }
  if max_consecutive_errors ≤ q.consecutive_errors then
    { q with is_active := false, disabled_at := now }
  else q

/-- ApiProxy.get_success_rate: 1.0 when no request was recorded, otherwise
the success fraction. -/
def get_success_rate (p : ApiProxy) : Rat :=
  if p.success_count + p.error_count = 0 then 1
  else (p.success_count : Rat) / ((p.success_count : Rat) + (p.error_count : Rat))

/-- ApiProxy.get_avg_response_time: 0 for an empty buffer, otherwise the
mean of the recorded response times. -/
def get_avg_response_time (p : ApiProxy) : Rat :=
  if p.response_times.isEmpty then 0
  else p.response_times.sum / (p.response_times.length : Rat)

/-- The mutation performed on the located proxy by
ApiProxyPool.update_proxy_status (and by the status route): set is_active. -/
def update_proxy_status (p : ApiProxy) (b : Bool) : ApiProxy :=
  { p with is_active := b }

/-- The mutation performed on the located proxy by the admin PUT route
update_api_proxy (routes/api_proxy_management.py, lines 270 to 273): the
four required fields are overwritten in place; note that current_key_index
is not touched. -/
def update_proxy_fields (p : ApiProxy) (api_base : String) (api_keys : List String)
    (model : String) (models : List String) : ApiProxy :=
  { p with
    api_base := rstripSlash api_base
    api_keys := api_keys
    model := model
    models := models }

/-- ApiProxyPool._is_circuit_breaker_open, including its side effects on the
proxy: the returned Bool is the Python return value, the returned proxy is
the possibly mutated object.  When the threshold is reached and the opened_at
attribute is present but stale (including the initial value 0.0), the check
resets consecutive_errors and deletes the attribute; when the attribute is
absent it is created with the current time. -/
def cbCheck (enabled : Bool) (now : Rat) (p : ApiProxy) : Bool × ApiProxy :=
  if !enabled then (false, p)
  else if circuit_breaker_threshold ≤ p.consecutive_errors then
    match p.circuit_breaker_opened_at with
    | some t =>
      if now - t < circuit_breaker_timeout then (true, p)
      else (false, { p with consecutive_errors := 0, circuit_breaker_opened_at := none })
    | none => (true, { p with circuit_breaker_opened_at := some now })
  else (false, p)

/-- Side-effect-free description of the open-circuit condition: exactly the
Boolean that cbCheck computes from the pre-state. -/
def circuit_breaker_open_state (enabled : Bool) (now : Rat) (p : ApiProxy) : Bool :=
  enabled && decide (circuit_breaker_threshold ≤ p.consecutive_errors) &&
    (match p.circuit_breaker_opened_at with
     | some t => decide (now - t < circuit_breaker_timeout)
     | none => true)

/-- ApiProxyPool._calculate_health_score: success rate minus error and
slow-response penalties plus a recent-activity bonus, clamped to the unit
interval. -/
def calculate_health_score (now : Rat) (p : ApiProxy) : Rat :=
  if !p.is_active then 0
  else
    let sr := get_success_rate p
    let ep := min (0.5 : Rat) ((p.consecutive_errors : Rat) * 0.1)
    let tp : Rat :=
      if p.response_times.isEmpty then 0
      else if 30 < get_avg_response_time p then
        min (0.3 : Rat) ((get_avg_response_time p - 30) * 0.01)
      else 0
    let ab : Rat := if now - p.last_success_time < 300 then 0.1 else 0
    max 0 (min 1 (sr - ep - tp + ab))

/-- ApiProxyPool._calculate_load_score: one minus the fraction of the
five-minute request budget (100 requests) used recently. -/
def calculate_load_score (now : Rat) (p : ApiProxy) : Rat :=
  let recent := (p.request_timestamps.filter (fun t => now - t < 300)).length
  1 - min 1 ((recent : Rat) / 100)

/-- The priority_score component of enhanced_proxy_score. -/
def priority_score (p : ApiProxy) : Rat := max 0 (100 - (p.priority : Rat))

/-- The response_time_score component of enhanced_proxy_score: zero unless
there is a positive average response time. -/
def response_time_score (p : ApiProxy) : Rat :=
  if p.response_times.isEmpty then 0
  else if 0 < get_avg_response_time p then max 0 (100 - get_avg_response_time p * 10)
  else 0

/-- The available_models_bonus component of enhanced_proxy_score. -/
def available_models_bonus (p : ApiProxy) : Rat :=
  if p.available_models.isEmpty then 0 else 20

/-- The error_penalty component of enhanced_proxy_score. -/
def error_penalty (p : ApiProxy) : Rat := min 50 ((p.consecutive_errors : Rat) * 10)

/-- The ranking score exactly as the specification text states it: the
weighted sum of the components minus the consecutive-error penalty, with no
clamping.  Written from the specification sentence for comparison with the
source function. -/
def spec_claimed_score (now : Rat) (p : ApiProxy) : Rat :=
  priority_score p * 0.25 + (get_success_rate p * 100) * 0.25 +
    response_time_score p * 0.15 + (calculate_health_score now p * 100) * 0.20 +
    (calculate_load_score now p * 100) * 0.10 + available_models_bonus p * 0.05 -
    error_penalty p

/-- enhanced_proxy_score from ApiProxyPool.select_best_proxy: the weighted
sum minus the penalty, clamped below at zero by the final max(0, total). -/
def enhanced_proxy_score (now : Rat) (p : ApiProxy) : Rat :=
  max 0 (priority_score p * 0.25 + (get_success_rate p * 100) * 0.25 +
    response_time_score p * 0.15 + (calculate_health_score now p * 100) * 0.20 +
    (calculate_load_score now p * 100) * 0.10 + available_models_bonus p * 0.05 -
    error_penalty p)

/-- The model filter of select_best_proxy: with a requested model, prefer
proxies where it is confirmed available, fall back to proxies that declare
it, fall back to every active proxy. -/
def candidatePred (model? : Option String) (active : List ApiProxy) : ApiProxy → Bool :=
  match model? with
  | none => fun _ => true
  | some m =>
    if active.any (fun q => q.available_models.contains m) then
      fun p => p.available_models.contains m
    else if active.any (fun q => q.models.contains m) then
      fun p => p.models.contains m
    else fun _ => true

/-- Stable insertion into a descending list: the new element goes after
every earlier element with a score at least as large.  Together with
sortDesc this is the unique stable descending sort, the behaviour of
Python sorted with a key and reverse=True. -/
def insertDesc (score : ApiProxy → Rat) (p : ApiProxy) : List ApiProxy → List ApiProxy
  | [] => [p]
  | q :: qs => if score q > score p then q :: insertDesc score p qs else p :: q :: qs

/-- Stable descending insertion sort, modelling sorted(candidates, key,
reverse=True). -/
def sortDesc (score : ApiProxy → Rat) : List ApiProxy → List ApiProxy
  | [] => []
  | p :: ps => insertDesc score p (sortDesc score ps)

/-- Whether a proxy belongs to the candidate list built by
select_best_proxy before the circuit-breaker filter: it must be active and
pass the model filter computed over the active sublist. -/
def sel_pred (model? : Option String) (proxies : List ApiProxy) (p : ApiProxy) : Bool :=
  p.is_active && candidatePred model? (proxies.filter (fun q => q.is_active)) p

/-- The pool contents after the circuit-breaker filter of select_best_proxy
has run: every candidate has been passed through cbCheck (whose side
effects happen whether or not the proxy is kept), every other proxy is
untouched. -/
def sel_pool (enabled : Bool) (now : Rat) (model? : Option String)
    (proxies : List ApiProxy) : List ApiProxy :=
  proxies.map (fun p => if sel_pred model? proxies p then (cbCheck enabled now p).2 else p)

/-- The candidates surviving the circuit-breaker filter, in pool order and
in their post-check states. -/
def sel_kept (enabled : Bool) (now : Rat) (model? : Option String)
    (proxies : List ApiProxy) : List ApiProxy :=
  proxies.filterMap (fun p =>
    if sel_pred model? proxies p then
      match cbCheck enabled now p with
      | (true, _) => none
      | (false, p') => some p'
    else none)

/-- ApiProxyPool.select_best_proxy.  Returns the Python return value
together with the post-call pool contents: the circuit-breaker filter
mutates each candidate through cbCheck, so the whole list is threaded.
The enabled flag is the pool field circuit_breaker_enabled and now is the
value of time.time() during the call. -/
def select_best_proxy (enabled : Bool) (now : Rat) (model? : Option String)
    (proxies : List ApiProxy) : Option ApiProxy × List ApiProxy :=
  if (proxies.filter (fun p => p.is_active)).isEmpty then (none, proxies)
  else
    match sortDesc (enhanced_proxy_score now) (sel_kept enabled now model? proxies) with
    | [] => (none, sel_pool enabled now model? proxies)
    | best :: _ => (some best, sel_pool enabled now model? proxies)

/-- What the HTTP layer produced for one outbound request: a 200 response
with its latency, a non-200 status with the extracted error message, or a
transport exception (requests.exceptions) raised before any response, with
its classified kind. -/
inductive Outcome where
  | ok (response_time : Rat)
  | httpError (status : Nat) (msg : String)
  | transportError (kind : String)
  deriving DecidableEq

/-- True when the outcome makes _make_api_request raise. -/
def isErrOutcome : Outcome → Bool
  | .ok _ => false
  | _ => true

/-- The message of the exception _make_api_request raises for an outcome. -/
def outcomeErrMsg : Outcome → String
  | .ok _ => ""
  | .httpError _ msg => msg
  | .transportError kind => kind

/-- ApiProxyPool._classify_error over an outcome.  The source matches on the
exception class for timeouts and connection errors and on status-code
substrings of the message otherwise; here the transport kind is carried
directly and the status code is matched numerically. -/
def classify_error : Outcome → String
  | .ok _ => "unknown"
  | .transportError kind => kind
  | .httpError st _ =>
    if st = 401 ∨ st = 403 then "auth_error"
    else if st = 429 then "rate_limit"
    else if st = 500 ∨ st = 502 ∨ st = 503 ∨ st = 504 then "server_error"
    else if st = 400 then "client_error"
    else "unknown"

/-- ApiProxyPool._make_api_request: on a 200 response it records the success
and returns the body; on an HTTP error it records an error of type unknown,
rotates the key for 401 or 403, and raises; on a transport exception it
raises without touching the proxy.  The Except result stands for the raised
exception or the returned JSON (abstracted to the response latency). -/
def make_api_request (now : Rat) (o : Outcome) (p : ApiProxy) :
    Except String Rat × ApiProxy :=
  match o with
  | .ok rt => (.ok rt, record_success p now rt)
  | .httpError st msg =>
    let p1 := record_error p now "unknown"
    let p2 := if st = 401 ∨ st = 403 then rotate_key p1 else p1
    (.error msg, p2)
  | .transportError kind => (.error kind, p)

/-- ApiProxyPool._perform_health_check.  The recovery and probe arguments
give the outcomes of the (up to two) test requests the method can issue:
one inside the auto-recovery branch for a disabled proxy, one for the
regular probe of an active proxy.  Both requests go through
make_api_request, so a 200 response records a success (which already resets
consecutive_errors) before the explicit decrement branch runs. -/
def perform_health_check (auto_recovery_enabled : Bool) (now : Rat)
    (recovery probe : Outcome) (p : ApiProxy) : ApiProxy :=
  let p0 := { p with last_health_check := now }
  let p1 :=
    if auto_recovery_enabled && !p0.is_active && decide (0 < p0.disabled_at) &&
        decide (auto_recovery_interval < now - p0.disabled_at) &&
        decide (p0.auto_recovery_attempts < max_auto_recovery_attempts) then
      let pa := { p0 with auto_recovery_attempts := p0.auto_recovery_attempts + 1 }
      match make_api_request now recovery pa with
      | (.ok _, pb) =>
        { pb with is_active := true, consecutive_errors := 0,
                  circuit_breaker_opened_at := some 0 }
      | (.error _, pb) => record_error pb now (classify_error recovery)
    else p0
  if p1.is_active then
    match make_api_request now probe p1 with
    | (.ok _, pb) =>
      if 0 < pb.consecutive_errors then
        { pb with consecutive_errors := pb.consecutive_errors - 1 }
      else pb
    | (.error _, pb) => record_error pb now (classify_error probe)
  else p1

/-- Substring test on character lists, modelling the Python operator
needle in haystack. -/
def containsSub (needle hay : List Char) : Bool :=
  (List.range (hay.length + 1)).any (fun i => needle.isPrefixOf (hay.drop i))

/-- The model.split logic of call_api: the part before the first slash when
a slash occurs, otherwise the part before the first dash. -/
def split_model_pref (model : String) : String :=
  if 1 < (model.splitOn "/").length then (model.splitOn "/").headD model
  else (model.splitOn "-").headD model

/-- The model substitution preamble of ApiProxyPool.call_api: replace an
unsupported model with the proxy default, then, when a confirmed-available
list exists and does not contain the chosen model, take a case-insensitive
name-stem match from it, else its first entry, else the proxy default. -/
def resolve_model (p : ApiProxy) (model : String) : String :=
  let m1 := if model ≠ "" && !(p.models.contains model) then p.model else model
  if !p.available_models.isEmpty && !(p.available_models.contains m1) then
    let stem := split_model_pref m1
    match p.available_models.find? (fun am =>
        containsSub stem.toLower.data am.toLower.data) with
    | some m2 => m2
    | none =>
      match p.available_models with
      | m2 :: _ => m2
      | [] => p.model
  else m1

/-- The retry loop of ApiProxyPool.call_api.  fuel is max_retries minus the
attempts already made, i numbers the attempts (to index the outcome oracle
req and the per-attempt clock tms), and last is the saved last_error.
Returns the result, the final proxy state, the number of requests actually
issued, and the list of sleep durations executed between attempts (the
source sleeps a fixed 1 second). -/
def callApiGo (req : Nat → Outcome) (tms : Nat → Rat) :
    Nat → Nat → Option String → ApiProxy →
    Except String Rat × ApiProxy × Nat × List Rat
  | 0, _, last, p => (.error (last.getD "调用失败"), p, 0, [])
  | fuel + 1, i, _, p =>
    match make_api_request (tms i) (req i) p with
    | (.ok rt, p') => (.ok rt, p', 1, [])
    | (.error e, p') =>
      match fuel with
      | 0 => (.error e, p', 1, [])
      | fuel' + 1 =>
        let r := callApiGo req tms (fuel' + 1) (i + 1) (some e) p'
        (r.1, r.2.1, r.2.2.1 + 1, (1 : Rat) :: r.2.2.2)

/-- ApiProxyPool.call_api: raise at once for an inactive proxy, otherwise
resolve the model and run up to max_retries attempts with a fixed one-second
sleep between consecutive attempts; when every attempt fails the last
exception is re-raised. -/
def call_api (req : Nat → Outcome) (tms : Nat → Rat) (model : String)
    (p : ApiProxy) (max_retries : Nat) :
    Except String Rat × ApiProxy × Nat × List Rat :=
  if !p.is_active then (.error ("代理 " ++ p.name ++ " 未激活"), p, 0, [])
  else
    let _resolved := resolve_model p model
    callApiGo req tms max_retries 0 none p

/-- One entry of the third_party_apis array in config.json. -/
structure ApiConfigEntry where
  name : String
  api_base : String
  api_keys : List String
  model : String
  models : List String
  available_models : List String
  is_active : Bool
  priority : Int
  deriving DecidableEq

/-- save_proxy_config, restricted to the data it writes: the
third_party_apis array rebuilt from the pool, one entry per proxy in pool
order. -/
def save_entries (ps : List ApiProxy) : List ApiConfigEntry :=
  ps.map (fun p =>
    { name := p.name
      api_base := p.api_base
      api_keys := p.api_keys
      model := p.model
      models := p.models
      available_models := p.available_models
      is_active := p.is_active
      priority := p.priority })

/-- ApiProxyPool.load_config, restricted to the data it reads: one fresh
ApiProxy constructed from each third_party_apis entry, in file order. -/
def load_config_proxies (entries : List ApiConfigEntry) (now : Rat) : List ApiProxy :=
  entries.map (fun e =>
    ApiProxy.init e.name e.api_base e.api_keys e.model e.models e.is_active
      e.priority e.available_models now)

/-! Helper lemmas shared by the claim theorems. -/

/-- The Boolean returned by the circuit-breaker check agrees with the pure
open-state description of the pre-state. -/
theorem cbCheck_fst (enabled : Bool) (now : Rat) (p : ApiProxy) :
    (cbCheck enabled now p).1 = circuit_breaker_open_state enabled now p := by
  unfold cbCheck circuit_breaker_open_state
  cases enabled with
  | false => simp
  | true =>
    by_cases h : circuit_breaker_threshold ≤ p.consecutive_errors
    · cases hc : p.circuit_breaker_opened_at with
      | none => simp [h, hc]
      | some t =>
        by_cases ht : now - t < circuit_breaker_timeout <;> simp [h, hc, ht]
    · simp [h]

/-- A proxy below the error threshold passes the circuit-breaker check
unchanged. -/
theorem cbCheck_of_lt (enabled : Bool) (now : Rat) (p : ApiProxy)
    (h : p.consecutive_errors < circuit_breaker_threshold) :
    cbCheck enabled now p = (false, p) := by
  unfold cbCheck
  cases enabled <;> simp [Nat.not_le.mpr h]

/-- A proxy that passes the circuit-breaker check comes out with the same
activation flag and in a state that is not open-circuit. -/
theorem cbCheck_false_spec (enabled : Bool) (now : Rat) (a p : ApiProxy)
    (h : cbCheck enabled now a = (false, p)) :
    p.is_active = a.is_active ∧ circuit_breaker_open_state enabled now p = false := by
  unfold cbCheck at h
  cases enabled with
  | false =>
    simp at h
    subst h
    simp [circuit_breaker_open_state]
  | true =>
    by_cases hth : circuit_breaker_threshold ≤ a.consecutive_errors
    · cases hc : a.circuit_breaker_opened_at with
      | none => simp [hth, hc] at h
      | some t =>
        by_cases ht : now - t < circuit_breaker_timeout
        · simp [hth, hc, ht] at h
        · simp [hth, hc, ht] at h
          subst h
          simp [circuit_breaker_open_state, circuit_breaker_threshold]
    · simp [hth] at h
      subst h
      simp [circuit_breaker_open_state, Nat.not_le.mp hth, Nat.lt_of_not_le hth]

/-- Membership in a stable descending insertion. -/
theorem mem_insertDesc (score : ApiProxy → Rat) (a x : ApiProxy) :
    ∀ l : List ApiProxy, x ∈ insertDesc score a l → x = a ∨ x ∈ l := by
  intro l
  induction l with
  | nil => intro h; simpa [insertDesc] using h
  | cons q qs ih =>
    intro h
    unfold insertDesc at h
    by_cases hq : score q > score a
    · simp [hq] at h
      rcases h with h | h
      · exact Or.inr (by simp [h])
      · rcases ih h with h' | h'
        · exact Or.inl h'
        · exact Or.inr (by simp [h'])
    · simp [hq] at h
      rcases h with h | h | h
      · exact Or.inl h
      · exact Or.inr (by simp [h])
      · exact Or.inr (by simp [h])

/-- Membership in the stable descending sort implies membership in the
input. -/
theorem mem_sortDesc (score : ApiProxy → Rat) (x : ApiProxy) :
    ∀ l : List ApiProxy, x ∈ sortDesc score l → x ∈ l := by
  intro l
  induction l with
  | nil => intro h; simp [sortDesc] at h
  | cons q qs ih =>
    intro h
    unfold sortDesc at h
    rcases mem_insertDesc _ _ _ _ h with h' | h'
    · simp [h']
    · simp [ih h']

/-- The stable descending sort of a list is empty only for the empty list. -/
theorem sortDesc_eq_nil (score : ApiProxy → Rat) :
    ∀ l : List ApiProxy, sortDesc score l = [] ↔ l = [] := by
  intro l
  cases l with
  | nil => simp [sortDesc]
  | cons q qs =>
    simp only [sortDesc]
    constructor
    · intro h
      cases hs : sortDesc score qs with
      | nil => rw [hs] at h; simp [insertDesc] at h
      | cons r rs =>
        rw [hs] at h
        unfold insertDesc at h
        by_cases hr : score r > score q <;> simp [hr] at h
    · intro h; cases h

/-- Mapping a function that fixes every member of a list is the identity. -/
theorem map_fix_of_mem {α : Type} (f : α → α) :
    ∀ l : List α, (∀ x ∈ l, f x = x) → l.map f = l := by
  intro l
  induction l with
  | nil => intro _; rfl
  | cons a as ih =>
    intro h
    simp only [List.map_cons]
    rw [h a (by simp), ih (fun x hx => h x (by simp [hx]))]

/-- record_error always increments consecutive_errors by one. -/
theorem record_error_consecutive (p : ApiProxy) (now : Rat) (e : String) :
    (record_error p now e).consecutive_errors = p.consecutive_errors + 1 := by
  simp only [record_error]
  split <;> rfl

/-- The activation flag after record_error: cleared exactly when the new
consecutive-error count reaches the threshold. -/
theorem record_error_is_active (p : ApiProxy) (now : Rat) (e : String) :
    (record_error p now e).is_active =
      if max_consecutive_errors ≤ p.consecutive_errors + 1 then false else p.is_active := by
  simp only [record_error]
  split <;> rfl

/-- The disabled_at stamp after record_error: set to the call time exactly
when the new consecutive-error count reaches the threshold. -/
theorem record_error_disabled_at (p : ApiProxy) (now : Rat) (e : String) :
    (record_error p now e).disabled_at =
      if max_consecutive_errors ≤ p.consecutive_errors + 1 then now else p.disabled_at := by
  simp only [record_error]
  split <;> rfl

/-- C2: a proxy that starts active with consecutive_errors = 0 is
deactivated, with a positive disabled_at stamp, by five record_error calls
(max_consecutive_errors = 5) with no intervening success: the fifth call
flips is_active to false and stamps disabled_at with the call time. -/
theorem c2_five_errors_disable (p : ApiProxy) (t1 t2 t3 t4 t5 : Rat)
    (e1 e2 e3 e4 e5 : String) (hact : p.is_active = true)
    (hce : p.consecutive_errors = 0) (ht : 0 < t5) :
    (record_error (record_error (record_error (record_error
        (record_error p t1 e1) t2 e2) t3 e3) t4 e4) t5 e5).is_active = false ∧
    0 < (record_error (record_error (record_error (record_error
        (record_error p t1 e1) t2 e2) t3 e3) t4 e4) t5 e5).disabled_at := by
  have h1 : (record_error p t1 e1).consecutive_errors = 1 := by
    rw [record_error_consecutive, hce]
  have h2 : (record_error (record_error p t1 e1) t2 e2).consecutive_errors = 2 := by
    rw [record_error_consecutive, h1]
  have h3 : (record_error (record_error (record_error p t1 e1) t2 e2) t3 e3).consecutive_errors = 3 := by
    rw [record_error_consecutive, h2]
  have h4 : (record_error (record_error (record_error (record_error p t1 e1) t2 e2) t3 e3) t4 e4).consecutive_errors = 4 := by
    rw [record_error_consecutive, h3]
  constructor
  · rw [record_error_is_active, h4]
    simp [max_consecutive_errors]
  · rw [record_error_disabled_at, h4]
    simpa [max_consecutive_errors] using ht

/-- Witness for C2 at a concrete proxy and concrete call times. -/
theorem c2_five_errors_disable_witness :
    (record_error (record_error (record_error (record_error
        (record_error (ApiProxy.init "w2" "https://a" ["k"] "m" ["m"] true 1 [] 0)
          1 "timeout") 2 "timeout") 3 "timeout") 4 "timeout") 5 "timeout").is_active = false ∧
    0 < (record_error (record_error (record_error (record_error
        (record_error (ApiProxy.init "w2" "https://a" ["k"] "m" ["m"] true 1 [] 0)
          1 "timeout") 2 "timeout") 3 "timeout") 4 "timeout") 5 "timeout").disabled_at :=
  c2_five_errors_disable (ApiProxy.init "w2" "https://a" ["k"] "m" ["m"] true 1 [] 0)
    1 2 3 4 5 "timeout" "timeout" "timeout" "timeout" "timeout"
    (by decide) (by decide) (by decide)

/-- C6: serialising a pool with save_proxy_config and rebuilding a fresh
pool from the written third_party_apis entries reproduces the proxy names,
priorities and activation flags, entry for entry in pool order. -/
theorem c6_save_load_round_trip (ps : List ApiProxy) (now : Rat) :
    (load_config_proxies (save_entries ps) now).map (fun p => p.name) =
        ps.map (fun p => p.name) ∧
    (load_config_proxies (save_entries ps) now).map (fun p => p.priority) =
        ps.map (fun p => p.priority) ∧
    (load_config_proxies (save_entries ps) now).map (fun p => p.is_active) =
        ps.map (fun p => p.is_active) := by
  refine ⟨?_, ?_, ?_⟩ <;>
    simp [load_config_proxies, save_entries, List.map_map, Function.comp, ApiProxy.init]

/-- C3 (amended): for an active proxy, a passing periodic health probe (the
test request inside _perform_health_check answers HTTP 200) leaves
consecutive_errors equal to 0: the record_success call performed by
_make_api_request on the 200 response already resets the counter, so the
subsequent decrement-by-one branch never fires. -/
theorem c3_amended_probe_resets (are : Bool) (now rt : Rat) (recovery : Outcome)
    (p : ApiProxy) (hact : p.is_active = true) :
    (perform_health_check are now recovery (Outcome.ok rt) p).consecutive_errors = 0 := by
  simp [perform_health_check, hact, make_api_request, record_success]

/-- Witness for C3 (amended) at a concrete degraded proxy. -/
theorem c3_amended_probe_resets_witness :
    (perform_health_check true 1000 (Outcome.ok 1) (Outcome.ok 1)
      (record_error (record_error
        (ApiProxy.init "w3" "https://a" ["k"] "m" ["m"] true 1 [] 0)
        1 "timeout") 2 "timeout")).consecutive_errors = 0 :=
  c3_amended_probe_resets true 1000 1 (Outcome.ok 1)
    (record_error (record_error
      (ApiProxy.init "w3" "https://a" ["k"] "m" ["m"] true 1 [] 0)
      1 "timeout") 2 "timeout") (by decide)

/-- The concrete proxy refuting C3 as stated: active, with
consecutive_errors = 2 after two failed calls. -/
def c3_proxy : ApiProxy :=
  record_error (record_error
    (ApiProxy.init "C3" "https://a" ["k"] "m" ["m"] true 1 [] 0)
    1 "timeout") 2 "timeout"

/-- Counterexample to C3 as stated: with consecutive_errors = 2 before the
probe, a passing probe leaves the counter at 0, not at the claimed value
one lower than before (1). -/
theorem c3_counterexample :
    c3_proxy.is_active = true ∧
    c3_proxy.consecutive_errors = 2 ∧
    (perform_health_check true 1000 (Outcome.ok 1) (Outcome.ok 1) c3_proxy).consecutive_errors = 0 ∧
    (perform_health_check true 1000 (Outcome.ok 1) (Outcome.ok 1) c3_proxy).consecutive_errors ≠
      c3_proxy.consecutive_errors - 1 := by
  decide

/-- C4 (amended): current_key_index < len(api_keys) holds after
construction with a non-empty key list, and rotate_key preserves it; the
admin update operation that replaces api_keys does not re-establish it
(see the counterexample), key accesses staying in range only because
get_current_key indexes modulo the list length. -/
theorem c4_amended_key_index (p : ApiProxy) (now : Rat)
    (nm base mdl : String) (keys mdls avail : List String)
    (act : Bool) (prio : Int) :
    (keys ≠ [] →
      (ApiProxy.init nm base keys mdl mdls act prio avail now).current_key_index <
        (ApiProxy.init nm base keys mdl mdls act prio avail now).api_keys.length) ∧
    (p.current_key_index < p.api_keys.length →
      (rotate_key p).current_key_index < (rotate_key p).api_keys.length) := by
  constructor
  · intro hk
    have : 0 < keys.length := List.length_pos.mpr hk
    simpa [ApiProxy.init] using this
  · intro hlt
    unfold rotate_key
    split
    · rename_i hgt
      simpa using Nat.mod_lt _ (Nat.lt_of_le_of_lt (Nat.zero_le 1) hgt)
    · simpa using hlt

/-- Witness for C4 (amended): a freshly constructed three-key proxy
satisfies the bound, and one rotation preserves it. -/
theorem c4_amended_key_index_witness :
    (ApiProxy.init "w4" "https://a" ["k1", "k2", "k3"] "m" ["m"] true 1 [] 0).current_key_index <
      (ApiProxy.init "w4" "https://a" ["k1", "k2", "k3"] "m" ["m"] true 1 [] 0).api_keys.length ∧
    (rotate_key (ApiProxy.init "w4" "https://a" ["k1", "k2", "k3"] "m" ["m"] true 1 [] 0)).current_key_index <
      (rotate_key (ApiProxy.init "w4" "https://a" ["k1", "k2", "k3"] "m" ["m"] true 1 [] 0)).api_keys.length :=
  ⟨(c4_amended_key_index (ApiProxy.init "w4" "https://a" ["k1", "k2", "k3"] "m" ["m"] true 1 [] 0)
      0 "w4" "https://a" "m" ["k1", "k2", "k3"] ["m"] [] true 1).1 (by decide),
   (c4_amended_key_index (ApiProxy.init "w4" "https://a" ["k1", "k2", "k3"] "m" ["m"] true 1 [] 0)
      0 "w4" "https://a" "m" ["k1", "k2", "k3"] ["m"] [] true 1).2 (by decide)⟩

/-- The concrete proxy refuting C4 as stated: constructed with three keys,
rotated twice (current_key_index = 2), then hit by the admin update that
replaces api_keys with a single key. -/
def c4_proxy : ApiProxy :=
  update_proxy_fields
    (rotate_key (rotate_key
      (ApiProxy.init "C4" "https://a" ["k1", "k2", "k3"] "m" ["m"] true 1 [] 0)))
    "https://a" ["k"] "m" ["m"]

/-- Counterexample to C4 as stated: after the admin update replaces the
key list, the invariant current_key_index < len(api_keys) is violated
(index 2 against a one-element list). -/
theorem c4_counterexample :
    c4_proxy.api_keys ≠ [] ∧
    c4_proxy.current_key_index = 2 ∧
    c4_proxy.api_keys.length = 1 ∧
    ¬ c4_proxy.current_key_index < c4_proxy.api_keys.length := by
  decide

/-- C5 (amended): the score select_best_proxy ranks candidates by is the
weighted component sum minus the consecutive-error penalty, clamped below
at zero; it agrees with the unclamped formula of the claim exactly when
that formula is non-negative. -/
theorem c5_amended_score_clamped (now : Rat) (p : ApiProxy) :
    enhanced_proxy_score now p = max 0 (spec_claimed_score now p) ∧
    (0 ≤ spec_claimed_score now p →
      enhanced_proxy_score now p = spec_claimed_score now p) := by
  constructor
  · rfl
  · intro h
    unfold enhanced_proxy_score spec_claimed_score at *
    exact max_eq_right h

/-- Witness for C5 (amended) at a fresh proxy, whose unclamped score is
non-negative so the clamp is inert. -/
theorem c5_amended_score_clamped_witness :
    enhanced_proxy_score 1000 (ApiProxy.init "w5" "https://a" ["k"] "m" ["m"] true 1 [] 0) =
      spec_claimed_score 1000 (ApiProxy.init "w5" "https://a" ["k"] "m" ["m"] true 1 [] 0) :=
  (c5_amended_score_clamped 1000 (ApiProxy.init "w5" "https://a" ["k"] "m" ["m"] true 1 [] 0)).2
    (by norm_num [ApiProxy.init, spec_claimed_score, priority_score, get_success_rate,
      response_time_score, calculate_health_score, calculate_load_score,
      available_models_bonus, error_penalty, get_avg_response_time, rstripSlash])

/-- The concrete proxy refuting C5 as stated: priority 100 (priority score
0), four consecutive failed calls recorded early, scored at time 1000. -/
def c5_proxy : ApiProxy :=
  record_error (record_error (record_error (record_error
    (ApiProxy.init "C5" "https://a" ["k"] "m" ["m"] true 100 [] 0)
    1 "timeout") 2 "timeout") 3 "timeout") 4 "timeout"

/-- Counterexample to C5 as stated: the claimed unclamped formula yields
-30 on this candidate, but the score select_best_proxy actually ranks by
is 0, because enhanced_proxy_score clamps the total at zero. -/
theorem c5_counterexample :
    spec_claimed_score 1000 c5_proxy = -30 ∧
    enhanced_proxy_score 1000 c5_proxy = 0 ∧
    enhanced_proxy_score 1000 c5_proxy ≠ spec_claimed_score 1000 c5_proxy := by
  norm_num [c5_proxy, record_error, ApiProxy.init, spec_claimed_score,
    enhanced_proxy_score, priority_score, get_success_rate, response_time_score,
    calculate_health_score, calculate_load_score, available_models_bonus,
    error_penalty, get_avg_response_time, bumpErrorType, takeLast, rstripSlash,
    max_consecutive_errors]

/-- With no model filter, every proxy passes the candidate predicate, so
being a candidate for selection is exactly being active. -/
theorem sel_pred_none (proxies : List ApiProxy) (p : ApiProxy) :
    sel_pred none proxies p = p.is_active := by
  simp [sel_pred, candidatePred]

/-- C1 (amended): with no requested model, select_best_proxy returns None
exactly when every active proxy of the pool is in open-circuit state, that
is, when no active non-circuit-broken proxy exists.  (With a requested
model the claim fails: the model filter can narrow the candidates to a
circuit-broken subset while an active, non-broken proxy that does not serve
the model remains in the pool; see the counterexample.) -/
theorem c1_amended_none_iff (enabled : Bool) (now : Rat) (proxies : List ApiProxy) :
    (select_best_proxy enabled now none proxies).1 = none ↔
      ∀ p ∈ proxies, p.is_active = true →
        circuit_breaker_open_state enabled now p = true := by
  unfold select_best_proxy
  by_cases hA : (proxies.filter (fun p => p.is_active)).isEmpty
  · simp only [hA, if_true]
    constructor
    · intro _ p hp hact
      exfalso
      have hnil := List.isEmpty_iff.mp hA
      exact (List.filter_eq_nil_iff.mp hnil p hp) hact
    · intro _
      trivial
  · simp only [hA, if_false]
    cases hs : sortDesc (enhanced_proxy_score now) (sel_kept enabled now none proxies) with
    | nil =>
      have hk := (sortDesc_eq_nil (enhanced_proxy_score now) _).mp hs
      unfold sel_kept at hk
      rw [List.filterMap_eq_nil_iff] at hk
      constructor
      · intro _ p hp hact
        have hfp := hk p hp
        rw [sel_pred_none, hact] at hfp
        simp only [if_true] at hfp
        rcases hcb : cbCheck enabled now p with ⟨b, p'⟩
        rw [hcb] at hfp
        cases b with
        | true => rw [← cbCheck_fst, hcb]
        | false => simp at hfp
      · intro _
        rfl
    | cons b rest =>
      constructor
      · intro habs
        simp at habs
      · intro hall
        exfalso
        have hbmem : b ∈ sortDesc (enhanced_proxy_score now) (sel_kept enabled now none proxies) := by
          rw [hs]; exact List.mem_cons_self b rest
        have hb := mem_sortDesc _ _ _ hbmem
        unfold sel_kept at hb
        rw [List.mem_filterMap] at hb
        obtain ⟨a, ha, hfa⟩ := hb
        by_cases hpa : sel_pred none proxies a = true
        · have hact : a.is_active = true := by rw [← sel_pred_none proxies a]; exact hpa
          have hopen := hall a ha hact
          rw [← cbCheck_fst] at hopen
          rcases hcb : cbCheck enabled now a with ⟨bb, p'⟩
          rw [hcb] at hopen hfa
          simp at hopen
          rw [hopen] at hfa
          simp [hpa] at hfa
        · simp [hpa] at hfa

/-- Witness for C1 (amended): the empty pool has no active proxy and
select_best_proxy returns None on it. -/
theorem c1_amended_none_iff_witness :
    (select_best_proxy true 1000 none ([] : List ApiProxy)).1 = none :=
  (c1_amended_none_iff true 1000 []).mpr (by intro p hp; cases hp)

/-- C7: whenever select_best_proxy returns a proxy, that proxy is active,
and it is not in open-circuit state (trivially so when the breaker is
disabled, and by the circuit filter when it is enabled). -/
theorem c7_selected_active (enabled : Bool) (now : Rat) (model? : Option String)
    (proxies : List ApiProxy) (p : ApiProxy)
    (h : (select_best_proxy enabled now model? proxies).1 = some p) :
    p.is_active = true ∧ circuit_breaker_open_state enabled now p = false := by
  unfold select_best_proxy at h
  by_cases hA : (proxies.filter (fun q => q.is_active)).isEmpty
  · rw [if_pos hA] at h
    cases h
  · rw [if_neg hA] at h
    cases hs : sortDesc (enhanced_proxy_score now) (sel_kept enabled now model? proxies) with
    | nil => rw [hs] at h; cases h
    | cons b rest =>
      rw [hs] at h
      have hbp : b = p := by
        simpa using h
      subst hbp
      have hbmem : b ∈ sortDesc (enhanced_proxy_score now) (sel_kept enabled now model? proxies) := by
        rw [hs]; exact List.mem_cons_self b rest
      have hb := mem_sortDesc _ _ _ hbmem
      unfold sel_kept at hb
      rw [List.mem_filterMap] at hb
      obtain ⟨a, _, hfa⟩ := hb
      by_cases hpa : sel_pred model? proxies a = true
      · rw [if_pos hpa] at hfa
        rcases hcb : cbCheck enabled now a with ⟨bb, p'⟩
        rw [hcb] at hfa
        cases bb with
        | true => simp at hfa
        | false =>
          simp only [Option.some.injEq] at hfa
          subst hfa
          have hspec := cbCheck_false_spec enabled now a p' hcb
          have hact : a.is_active = true := by
            have h' := hpa
            simp [sel_pred] at h'
            exact h'.1
          exact ⟨hspec.1.trans hact, hspec.2⟩
      · rw [if_neg hpa] at hfa
        cases hfa

/-- A proxy that has twice run up five consecutive errors.  Constructed by
operations of the source: five record_error calls (which deactivate it),
admin re-activation, one circuit-breaker check at time 400 (which, the
opened_at attribute holding its initial value 0, resets the counter and
deletes the attribute), five further record_error calls, and a second
admin re-activation.  Final state: active, consecutive_errors = 5, opened_at
attribute absent, and the requested model "m" in its available_models. -/
def c1_proxyA : ApiProxy :=
  update_proxy_status
    (record_error (record_error (record_error (record_error (record_error
      ((cbCheck true 400 (update_proxy_status
        (record_error (record_error (record_error (record_error (record_error
          (ApiProxy.init "A" "https://a" ["k"] "m" ["m"] true 1 ["m"] 0)
          1 "e") 2 "e") 3 "e") 4 "e") 5 "e") true)).2)
      401 "e") 402 "e") 403 "e") 404 "e") 405 "e") true

/-- An active, healthy proxy that does not serve model "m". -/
def c1_proxyB : ApiProxy := ApiProxy.init "B" "https://b" ["k"] "n" ["n"] true 1 [] 0

/-- Counterexample to C1 as stated: selecting with model "m" over the pool
of c1_proxyA (circuit-broken, but the only proxy with "m" available) and
c1_proxyB (active and non-broken, but without "m") returns None, although
an active, non-circuit-broken proxy exists in the pool. -/
theorem c1_counterexample :
    (select_best_proxy true 1000 (some "m") [c1_proxyA, c1_proxyB]).1 = none ∧
    ([c1_proxyA, c1_proxyB].any
      (fun p => p.is_active && !circuit_breaker_open_state true 1000 p)) = true := by
  constructor
  · norm_num [c1_proxyA, c1_proxyB, select_best_proxy, sel_kept, sel_pred,
      candidatePred, cbCheck, record_error, update_proxy_status, ApiProxy.init,
      bumpErrorType, takeLast, rstripSlash, max_consecutive_errors,
      circuit_breaker_threshold, circuit_breaker_timeout, List.filter,
      List.filterMap, List.any, List.contains, sortDesc, insertDesc]
  · norm_num [c1_proxyA, c1_proxyB, circuit_breaker_open_state, record_error,
      update_proxy_status, cbCheck, ApiProxy.init, bumpErrorType, takeLast,
      rstripSlash, max_consecutive_errors, circuit_breaker_threshold,
      circuit_breaker_timeout]

/-- A fresh healthy proxy used to witness C7. -/
def c7_proxy : ApiProxy := ApiProxy.init "W7" "https://a" ["k"] "m" ["m"] true 1 [] 0

/-- Witness for C7: on a pool with one fresh proxy the selection returns
it, and it is active and not circuit-broken. -/
theorem c7_selected_active_witness :
    c7_proxy.is_active = true ∧
    circuit_breaker_open_state true 1000 c7_proxy = false :=
  c7_selected_active true 1000 none [c7_proxy] c7_proxy
    (by norm_num [c7_proxy, select_best_proxy, sel_kept, sel_pred, candidatePred,
      cbCheck, ApiProxy.init, rstripSlash, circuit_breaker_threshold,
      List.filter, List.filterMap, sortDesc, insertDesc])

/-- C8: for a pool of two candidate proxies (both active, both below the
circuit-breaker threshold) with equal computed scores, select_best_proxy
deterministically returns the first one: the sort is stable, so equal
scores keep configured order. -/
theorem c8_stable_tie (enabled : Bool) (now : Rat) (p1 p2 : ApiProxy)
    (h1 : p1.is_active = true) (h2 : p2.is_active = true)
    (hc1 : p1.consecutive_errors < circuit_breaker_threshold)
    (hc2 : p2.consecutive_errors < circuit_breaker_threshold)
    (hs : enhanced_proxy_score now p1 = enhanced_proxy_score now p2) :
    (select_best_proxy enabled now none [p1, p2]).1 = some p1 := by
  have hkept : sel_kept enabled now none [p1, p2] = [p1, p2] := by
    unfold sel_kept
    simp [sel_pred_none, h1, h2, cbCheck_of_lt _ _ _ hc1, cbCheck_of_lt _ _ _ hc2]
  have hsort : sortDesc (enhanced_proxy_score now) [p1, p2] = [p1, p2] := by
    simp [sortDesc, insertDesc, hs, lt_irrefl]
  unfold select_best_proxy
  rw [hkept, hsort]
  simp [h1]

/-- The first of two equal-score proxies used to witness C8. -/
def c8_p1 : ApiProxy := ApiProxy.init "P1" "https://a" ["k"] "m" ["m"] true 1 [] 0

/-- The second of two equal-score proxies used to witness C8. -/
def c8_p2 : ApiProxy := ApiProxy.init "P2" "https://b" ["k"] "m" ["m"] true 1 [] 0

/-- Witness for C8: two freshly constructed proxies have identical scores
and the selection returns the first. -/
theorem c8_stable_tie_witness :
    (select_best_proxy true 1000 none [c8_p1, c8_p2]).1 = some c8_p1 :=
  c8_stable_tie true 1000 c8_p1 c8_p2 (by decide) (by decide) (by decide) (by decide)
    (by norm_num [c8_p1, c8_p2, enhanced_proxy_score, priority_score,
      get_success_rate, response_time_score, calculate_health_score,
      calculate_load_score, available_models_bonus, error_penalty,
      get_avg_response_time, ApiProxy.init, rstripSlash])

/-- A failing request returns the outcome message as the raised error, for
some final proxy state. -/
theorem make_api_request_err (now : Rat) (o : Outcome) (p : ApiProxy)
    (h : isErrOutcome o = true) :
    ∃ q, make_api_request now o p = (Except.error (outcomeErrMsg o), q) := by
  cases o with
  | ok rt => simp [isErrOutcome] at h
  | httpError st msg => exact ⟨_, rfl⟩
  | transportError k => exact ⟨p, rfl⟩

/-- A 200 response returns the body and records the success. -/
theorem make_api_request_ok (now rt : Rat) (p : ApiProxy) :
    make_api_request now (Outcome.ok rt) p =
      (Except.ok rt, record_success p now rt) := rfl

/-- Unfolding of the retry loop with three attempts remaining. -/
theorem callApiGo_three (req : Nat → Outcome) (tms : Nat → Rat) (i : Nat)
    (last : Option String) (p : ApiProxy) :
    callApiGo req tms 3 i last p =
      match make_api_request (tms i) (req i) p with
      | (.ok rt, p') => (.ok rt, p', 1, [])
      | (.error e, p') =>
        let r := callApiGo req tms 2 (i + 1) (some e) p'
        (r.1, r.2.1, r.2.2.1 + 1, (1 : Rat) :: r.2.2.2) := by
  show callApiGo req tms (2 + 1) i last p = _
  rw [callApiGo]

/-- Unfolding of the retry loop with two attempts remaining. -/
theorem callApiGo_two (req : Nat → Outcome) (tms : Nat → Rat) (i : Nat)
    (last : Option String) (p : ApiProxy) :
    callApiGo req tms 2 i last p =
      match make_api_request (tms i) (req i) p with
      | (.ok rt, p') => (.ok rt, p', 1, [])
      | (.error e, p') =>
        let r := callApiGo req tms 1 (i + 1) (some e) p'
        (r.1, r.2.1, r.2.2.1 + 1, (1 : Rat) :: r.2.2.2) := by
  show callApiGo req tms (1 + 1) i last p = _
  rw [callApiGo]

/-- Unfolding of the retry loop with one attempt remaining: a failure here
raises at once, with no sleep. -/
theorem callApiGo_one (req : Nat → Outcome) (tms : Nat → Rat) (i : Nat)
    (last : Option String) (p : ApiProxy) :
    callApiGo req tms 1 i last p =
      match make_api_request (tms i) (req i) p with
      | (.ok rt, p') => (.ok rt, p', 1, [])
      | (.error e, p') => (.error e, p', 1, []) := by
  show callApiGo req tms (0 + 1) i last p = _
  rw [callApiGo]

/-- C9: for an active proxy, call_api with the default max_retries = 3
issues at most three requests, sleeps a fixed one second between
consecutive attempts (no backoff), and when every attempt fails it raises
the exception of the last (third) attempt. -/
theorem c9_call_api_retry (req : Nat → Outcome) (tms : Nat → Rat) (model : String)
    (p : ApiProxy) (hact : p.is_active = true) :
    (call_api req tms model p 3).2.2.1 ≤ 3 ∧
    (∀ s ∈ (call_api req tms model p 3).2.2.2, s = 1) ∧
    ((∀ i, i < 3 → isErrOutcome (req i) = true) →
      (call_api req tms model p 3).1 = Except.error (outcomeErrMsg (req 2)) ∧
      (call_api req tms model p 3).2.2.1 = 3 ∧
      (call_api req tms model p 3).2.2.2 = [1, 1]) := by
  have hcall : call_api req tms model p 3 = callApiGo req tms 3 0 none p := by
    unfold call_api
    simp [hact]
  rw [hcall]
  by_cases hb0 : isErrOutcome (req 0) = true
  · obtain ⟨q0, hm0⟩ := make_api_request_err (tms 0) (req 0) p hb0
    by_cases hb1 : isErrOutcome (req 1) = true
    · obtain ⟨q1, hm1⟩ := make_api_request_err (tms 1) (req 1) q0 hb1
      by_cases hb2 : isErrOutcome (req 2) = true
      · obtain ⟨q2, hm2⟩ := make_api_request_err (tms 2) (req 2) q1 hb2
        have hval : callApiGo req tms 3 0 none p =
            (Except.error (outcomeErrMsg (req 2)), q2, 3, [1, 1]) := by
          simp [callApiGo_three, callApiGo_two, callApiGo_one, hm0, hm1, hm2]
        rw [hval]
        refine ⟨by norm_num, by simp, ?_⟩
        intro _
        exact ⟨rfl, rfl, rfl⟩
      · rcases ho2 : req 2 with rt | ⟨st, msg⟩ | k
        · have hval : callApiGo req tms 3 0 none p =
              (Except.ok rt, record_success q1 (tms 2) rt, 3, [1, 1]) := by
            simp [callApiGo_three, callApiGo_two, callApiGo_one, hm0, hm1, ho2,
              make_api_request_ok]
          rw [hval]
          refine ⟨by norm_num, by simp, ?_⟩
          intro hall
          exact absurd (ho2 ▸ hall 2 (by norm_num)) (by simp [isErrOutcome])
        · exact absurd (by rw [ho2]; rfl) hb2
        · exact absurd (by rw [ho2]; rfl) hb2
    · rcases ho1 : req 1 with rt | ⟨st, msg⟩ | k
      · have hval : callApiGo req tms 3 0 none p =
            (Except.ok rt, record_success q0 (tms 1) rt, 2, [1]) := by
          simp [callApiGo_three, callApiGo_two, hm0, ho1, make_api_request_ok]
        rw [hval]
        refine ⟨by norm_num, by simp, ?_⟩
        intro hall
        exact absurd (ho1 ▸ hall 1 (by norm_num)) (by simp [isErrOutcome])
      · exact absurd (by rw [ho1]; rfl) hb1
      · exact absurd (by rw [ho1]; rfl) hb1
  · rcases ho0 : req 0 with rt | ⟨st, msg⟩ | k
    · have hval : callApiGo req tms 3 0 none p =
          (Except.ok rt, record_success p (tms 0) rt, 1, []) := by
        simp [callApiGo_three, ho0, make_api_request_ok]
      rw [hval]
      refine ⟨by norm_num, by simp, ?_⟩
      intro hall
      exact absurd (ho0 ▸ hall 0 (by norm_num)) (by simp [isErrOutcome])
    · exact absurd (by rw [ho0]; rfl) hb0
    · exact absurd (by rw [ho0]; rfl) hb0

/-- The always-timing-out request oracle used to witness C9. -/
def c9_req : Nat → Outcome := fun _ => Outcome.transportError "timeout"

/-- The fresh active proxy used to witness C9. -/
def c9_proxy : ApiProxy := ApiProxy.init "W9" "https://a" ["k"] "m" ["m"] true 1 [] 0

/-- Witness for C9: with every attempt timing out, exactly three requests
are made, the two sleeps are one second each, and the third timeout is the
error raised. -/
theorem c9_call_api_retry_witness :
    (call_api c9_req (fun _ => 0) "m" c9_proxy 3).1 = Except.error "timeout" ∧
    (call_api c9_req (fun _ => 0) "m" c9_proxy 3).2.2.1 = 3 ∧
    (call_api c9_req (fun _ => 0) "m" c9_proxy 3).2.2.2 = [1, 1] :=
  (c9_call_api_retry c9_req (fun _ => 0) "m" c9_proxy (by decide)).2.2
    (fun i _ => by simp [c9_req, isErrOutcome])

/-- Mapping two pointwise-equal functions over a list gives equal lists. -/
theorem map_congr_mem {α β : Type} (f g : α → β) :
    ∀ l : List α, (∀ x ∈ l, f x = g x) → l.map f = l.map g := by
  intro l
  induction l with
  | nil => intro _; rfl
  | cons a as ih =>
    intro h
    simp only [List.map_cons]
    rw [h a (by simp), ih (fun x hx => h x (by simp [hx]))]

/-- C10 (amended): a select_best_proxy call touches exactly the candidate
proxies, through the circuit-breaker check, and only in two ways: a
candidate at or above the error threshold whose opened_at attribute is
absent gets the attribute set to the current time, and one whose attribute
is present but at least circuit_breaker_timeout old (including the initial
value 0.0, so also on the first time the threshold is reached) has
consecutive_errors reset to 0 and the attribute removed.  Every other
proxy, every other field, and every candidate below the threshold or with
a fresh open breaker is left unchanged. -/
theorem c10_amended_selection_effects (enabled : Bool) (now : Rat)
    (model? : Option String) (proxies : List ApiProxy) :
    (select_best_proxy enabled now model? proxies).2 =
      proxies.map (fun p =>
        if sel_pred model? proxies p && enabled &&
            decide (circuit_breaker_threshold ≤ p.consecutive_errors) then
          match p.circuit_breaker_opened_at with
          | none => { p with circuit_breaker_opened_at := some now }
          | some t =>
            if now - t < circuit_breaker_timeout then p
            else { p with consecutive_errors := 0, circuit_breaker_opened_at := none }
        else p) := by
  have hstep : ∀ p : ApiProxy,
      (if sel_pred model? proxies p then (cbCheck enabled now p).2 else p) =
      (if sel_pred model? proxies p && enabled &&
          decide (circuit_breaker_threshold ≤ p.consecutive_errors) then
        match p.circuit_breaker_opened_at with
        | none => { p with circuit_breaker_opened_at := some now }
        | some t =>
          if now - t < circuit_breaker_timeout then p
          else { p with consecutive_errors := 0, circuit_breaker_opened_at := none }
      else p) := by
    intro p
    by_cases hp : sel_pred model? proxies p = true
    · rw [if_pos hp]
      unfold cbCheck
      cases enabled with
      | false => simp [hp]
      | true =>
        by_cases hth : circuit_breaker_threshold ≤ p.consecutive_errors
        · cases hc : p.circuit_breaker_opened_at with
          | none => simp [hp, hth, hc]
          | some t =>
            by_cases htm : now - t < circuit_breaker_timeout <;>
              simp [hp, hth, hc, htm]
        · simp [hp, hth]
    · have hp' : sel_pred model? proxies p = false := by
        cases hq : sel_pred model? proxies p
        · rfl
        · exact absurd hq hp
      simp [hp']
  unfold select_best_proxy
  by_cases hA : (proxies.filter (fun p => p.is_active)).isEmpty
  · rw [if_pos hA]
    refine Eq.symm (map_fix_of_mem _ proxies ?_)
    intro p hp
    have hnact : ¬ p.is_active = true := by
      have hnil := List.isEmpty_iff.mp hA
      exact List.filter_eq_nil_iff.mp hnil p hp
    have hna : p.is_active = false := by
      cases hq : p.is_active
      · rfl
      · exact absurd hq hnact
    simp [sel_pred, hna]
  · rw [if_neg hA]
    cases hs : sortDesc (enhanced_proxy_score now) (sel_kept enabled now model? proxies) with
    | nil =>
      show sel_pool enabled now model? proxies = _
      unfold sel_pool
      exact map_congr_mem _ _ proxies (fun p _ => hstep p)
    | cons b rest =>
      show sel_pool enabled now model? proxies = _
      unfold sel_pool
      exact map_congr_mem _ _ proxies (fun p _ => hstep p)

/-- The concrete proxy refuting C10 as stated: it has reached
consecutive_errors = 5 for the first time (five record_error calls on a
fresh proxy, which also deactivate it) and been re-activated by the admin
status update; its circuit_breaker_opened_at attribute still holds the
constructor value 0.0. -/
def c10_proxy : ApiProxy :=
  update_proxy_status
    (record_error (record_error (record_error (record_error (record_error
      (ApiProxy.init "C10" "https://a" ["k"] "m" ["m"] true 1 [] 0)
      1 "e") 2 "e") 3 "e") 4 "e") 5 "e") true

/-- Counterexample to C10 as stated: on this proxy, which has just reached
consecutive_errors >= 5 for the first time, a selection call at time 1000
does not set circuit_breaker_opened_at to the current time; it takes the
stale-breaker branch instead (the attribute holds its initial value 0.0),
resetting consecutive_errors to 0 and deleting the attribute. -/
theorem c10_counterexample :
    c10_proxy.consecutive_errors = 5 ∧
    c10_proxy.circuit_breaker_opened_at = some 0 ∧
    ((select_best_proxy true 1000 none [c10_proxy]).2.head?).map
      (fun q => (q.circuit_breaker_opened_at, q.consecutive_errors)) =
        some (none, 0) := by
  refine ⟨by decide, by decide, ?_⟩
  norm_num [c10_proxy, select_best_proxy, sel_pool, sel_kept, sel_pred,
    candidatePred, cbCheck, record_error, update_proxy_status, ApiProxy.init,
    bumpErrorType, takeLast, rstripSlash, max_consecutive_errors,
    circuit_breaker_threshold, circuit_breaker_timeout, List.filter,
    List.filterMap, sortDesc, insertDesc]
